import Mathlib

/-!
Verification development for hw/ccid-card-emulated.c (emulated CCID card
device).  The C file implements a cross-thread event bridge: two worker
threads (an event-source thread and an APDU worker thread) push tagged
event records into mutex-protected queues, and the consumer thread drains
the event queue from a pipe-readiness handler and invokes device callbacks.

Shallow embedding conventions:
  - machine integers become Nat (with explicit % 256 where the C stores
    into a uint8_t); byte buffers become List Nat;
  - the VReader* pointer held in card->reader becomes an Option Nat
    (a nullable opaque reference identity);
  - external collaborators (vreader_xfr_bytes, vreader_power_on,
    vcard_emul_init, pthread_create, the pipe write) are oracles passed in
    as function arguments or result parameters, constrained only by the
    interface contracts the spec states for them;
  - the lock-sensitive parts of pipe_read and emulated_push_event are
    additionally modelled as traces of atomic actions so lock-ordering
    statements can be made.
-/

namespace CcidCardEmulated

/-- Event kinds of the EmulEvent tagged union (enum, lines 43-51 of
hw/ccid-card-emulated.c). -/
def EMUL_READER_INSERT : Nat := 0

def EMUL_READER_REMOVE : Nat := 1

def EMUL_CARD_INSERT : Nat := 2

def EMUL_CARD_REMOVE : Nat := 3

def EMUL_GUEST_APDU : Nat := 4

def EMUL_RESPONSE_APDU : Nat := 5

def EMUL_ERROR : Nat := 6

/-- Fixed capacity of the device ATR buffer (line 87: #define MAX_ATR_SIZE 40). -/
def MAX_ATR_SIZE : Nat := 40

/-- Fixed capacity of the APDU receive buffer (line 202: #define APDU_BUF_SIZE 270). -/
def APDU_BUF_SIZE : Nat := 270

/-- Success status of the external vreader collaborator (VReaderStatus VREADER_OK).
Only equality against it is ever tested by the C code; it is the zero status. -/
def VREADER_OK : Nat := 0

/-- Success status of vcard_emul_init (VCardEmulError VCARD_EMUL_OK). -/
def VCARD_EMUL_OK : Nat := 0

/-- Line 38: #define BACKEND_NSS_EMULATED "nss-emulated". -/
def BACKEND_NSS_EMULATED : String := "nss-emulated"

/-- Line 39: #define BACKEND_CERTIFICATES "certificates". -/
def BACKEND_CERTIFICATES : String := "certificates"

/-- EmulEvent (lines 69-85): a tagged union.  The gen variant reads only
type, the error variant reads type and code, the data variant reads type,
len and the trailing bytes.  The C code always sets len to the length of
the copied bytes, so len is represented as data.length. -/
structure EmulEvent where
  type : Nat
  code : Nat := 0
  data : List Nat := []
  deriving DecidableEq

/-- The mutable fields of EmulatedState (lines 88-109) that the claims
are about.  The qdev instance is zero-allocated, giving the defaults:
empty queues, NULL reader, zeroed 40-byte ATR buffer, atr_length 0. -/
structure EmulatedState where
  atr : List Nat := List.replicate MAX_ATR_SIZE 0
  atr_length : Nat := 0
  event_list : List EmulEvent := []
  reader : Option Nat := none
  guest_apdu_list : List EmulEvent := []
  quit_apdu_thread : Bool := false
  deriving DecidableEq

/-- The zero-allocated device state at init time. -/
def initialState : EmulatedState := {}

/-- emulated_get_atr (lines 126-132): *len = card->atr_length; return card->atr. -/
def emulated_get_atr (s : EmulatedState) : Nat × List Nat :=
  (s.atr_length, s.atr)

/-- State effect of emulated_push_event (lines 134-142): append the record
to event_list under the mutex.  The subsequent pipe write does not touch
the queue. -/
def emulated_push_event (s : EmulatedState) (event : EmulEvent) : EmulatedState :=
  { s with event_list := s.event_list ++ [event] }

/-- Atomic actions of emulated_push_event, for lock-ordering statements. -/
inductive PushAction where
  | lockAcquire
  | appendRecord (event : EmulEvent)
  | lockRelease
  | wakeupWrite (result : Int)
  | logWakeupFailure
  | abortProcess
  deriving DecidableEq

/-- emulated_push_event (lines 134-142) with its action trace: lock,
append, unlock, then the pipe write; if write(...) != 1 the failure is
only logged (DPRINTF), nothing aborts.  writeResult is the oracle value
returned by the non-blocking write. -/
def emulated_push_event_traced (s : EmulatedState) (event : EmulEvent)
    (writeResult : Int) : EmulatedState × List PushAction :=
  (emulated_push_event s event,
   [PushAction.lockAcquire, PushAction.appendRecord event, PushAction.lockRelease,
    PushAction.wakeupWrite writeResult]
     ++ if writeResult = 1 then [] else [PushAction.logWakeupFailure])

/-- emulated_push_type (lines 144-151): a gen record carrying only a type. -/
def emulated_push_type (s : EmulatedState) (type : Nat) : EmulatedState :=
  emulated_push_event s { type := type }

/-- emulated_push_error (lines 153-161). -/
def emulated_push_error (s : EmulatedState) (code : Nat) : EmulatedState :=
  emulated_push_event s { type := EMUL_ERROR, code := code }

/-- emulated_push_data_type (lines 163-173): a data record carrying len
bytes copied from the caller. -/
def emulated_push_data_type (s : EmulatedState) (type : Nat) (data : List Nat) :
    EmulatedState :=
  emulated_push_event s { type := type, data := data }

/-- emulated_push_reader_insert (lines 175-178). -/
def emulated_push_reader_insert (s : EmulatedState) : EmulatedState :=
  emulated_push_type s EMUL_READER_INSERT

/-- emulated_push_reader_remove (lines 180-183). -/
def emulated_push_reader_remove (s : EmulatedState) : EmulatedState :=
  emulated_push_type s EMUL_READER_REMOVE

/-- emulated_push_card_insert (lines 185-189). -/
def emulated_push_card_insert (s : EmulatedState) (atr : List Nat) : EmulatedState :=
  emulated_push_data_type s EMUL_CARD_INSERT atr

/-- emulated_push_card_remove (lines 191-194). -/
def emulated_push_card_remove (s : EmulatedState) : EmulatedState :=
  emulated_push_type s EMUL_CARD_REMOVE

/-- emulated_push_response_apdu (lines 196-200). -/
def emulated_push_response_apdu (s : EmulatedState) (apdu : List Nat) : EmulatedState :=
  emulated_push_data_type s EMUL_RESPONSE_APDU apdu

/-- The external device/bus callbacks the dispatcher invokes (ccid_card_*). -/
inductive Callback where
  | sendApduToGuest (data : List Nat)
  | ccidAttach
  | ccidDetach
  | cardInserted
  | cardRemoved
  | cardError (code : Nat)
  deriving DecidableEq

/-- One arm of the dispatch switch in pipe_read (lines 332-358): state
update plus the external callback(s) invoked for this record.  Only the
EMUL_CARD_INSERT arm writes device state: atr_length (a uint8_t, hence
% 256) and then memcpy of atr_length bytes into the fixed 40-byte atr
buffer; the assert at line 344 guards len <= MAX_ATR_SIZE.  The default
arm only logs. -/
def dispatchEvent (s : EmulatedState) (e : EmulEvent) : EmulatedState × List Callback :=
  if e.type = EMUL_RESPONSE_APDU then
    (s, [Callback.sendApduToGuest e.data])
  else if e.type = EMUL_READER_INSERT then
    (s, [Callback.ccidAttach])
  else if e.type = EMUL_READER_REMOVE then
    (s, [Callback.ccidDetach])
  else if e.type = EMUL_CARD_INSERT then
    ({ s with
        atr_length := e.data.length % 256,
        atr := e.data.take (e.data.length % 256) ++ s.atr.drop (e.data.length % 256) },
     [Callback.cardInserted])
  else if e.type = EMUL_CARD_REMOVE then
    (s, [Callback.cardRemoved])
  else if e.type = EMUL_ERROR then
    (s, [Callback.cardError e.code])
  else
    (s, [])

/-- The QSIMPLEQ_FOREACH_SAFE loop of pipe_read (lines 330-360): dispatch
each queued record in order, accumulating callbacks in invocation order. -/
def pipeReadLoop : EmulatedState → List EmulEvent → EmulatedState × List Callback
  | s, [] => (s, [])
  | s, e :: rest =>
    let d := dispatchEvent s e
    let k := pipeReadLoop d.1 rest
    (k.1, d.2 ++ k.2)

/-- pipe_read (lines 319-363): drain the pipe, lock, iterate the whole
event_list dispatching and freeing each record, QSIMPLEQ_INIT the list,
unlock.  Returns the new state and the callbacks in invocation order. -/
def pipe_read (s : EmulatedState) : EmulatedState × List Callback :=
  let k := pipeReadLoop s s.event_list
  ({ k.1 with event_list := [] }, k.2)

/-- The callbacks the dispatch switch emits for a record (they do not
depend on the device state, only on the record). -/
def eventCallbacks (e : EmulEvent) : List Callback :=
  (dispatchEvent initialState e).2

/-- Atomic actions of pipe_read, for lock-ordering statements. -/
inductive TraceAction where
  | lockAcquire
  | callback (c : Callback)
  | freeRecord (e : EmulEvent)
  | queueReset
  | lockRelease
  deriving DecidableEq

/-- Action trace of the pipe_read loop body (lines 330-360): for each
record, its callback(s) then free(event). -/
def pipeReadTraceLoop : List EmulEvent → List TraceAction
  | [] => []
  | e :: rest =>
    (eventCallbacks e).map TraceAction.callback
      ++ (TraceAction.freeRecord e :: pipeReadTraceLoop rest)

/-- Full action trace of pipe_read (lines 329-362): mutex lock, the
dispatch loop, QSIMPLEQ_INIT, mutex unlock - in that source order. -/
def pipeReadTrace (es : List EmulEvent) : List TraceAction :=
  TraceAction.lockAcquire
    :: (pipeReadTraceLoop es ++ [TraceAction.queueReset, TraceAction.lockRelease])

/-- Scan a trace with a running lock depth; true when every callback
action occurs at positive depth (i.e. with the event-list lock held). -/
def scanAllUnderLock : Nat → List TraceAction → Bool
  | _, [] => true
  | d, TraceAction.lockAcquire :: tr => scanAllUnderLock (d + 1) tr
  | d, TraceAction.lockRelease :: tr => scanAllUnderLock (d - 1) tr
  | d, TraceAction.callback _ :: tr => decide (0 < d) && scanAllUnderLock d tr
  | d, _ :: tr => scanAllUnderLock d tr

/-- Scan a trace with a running lock depth; true when some callback
action occurs at positive depth. -/
def scanSomeUnderLock : Nat → List TraceAction → Bool
  | _, [] => false
  | d, TraceAction.lockAcquire :: tr => scanSomeUnderLock (d + 1) tr
  | d, TraceAction.lockRelease :: tr => scanSomeUnderLock (d - 1) tr
  | d, TraceAction.callback _ :: tr => decide (0 < d) || scanSomeUnderLock d tr
  | d, _ :: tr => scanSomeUnderLock d tr

/-- Every callback in the trace runs with the lock held. -/
def allCallbacksUnderLock (tr : List TraceAction) : Bool :=
  scanAllUnderLock 0 tr

/-- Some callback in the trace runs with the lock held. -/
def someCallbackUnderLock (tr : List TraceAction) : Bool :=
  scanSomeUnderLock 0 tr

/-- The callbacks of a trace, in order. -/
def traceCallbacks : List TraceAction → List Callback
  | [] => []
  | TraceAction.callback c :: tr => c :: traceCallbacks tr
  | _ :: tr => traceCallbacks tr

/-- The drain loop of handle_apdu_thread (lines 219-244), run with
vreader_mutex held so card->reader is fixed for the whole drain: pop each
pending record in order; a record whose type is not EMUL_GUEST_APDU is
logged and freed; if card->reader is NULL the request is logged and freed;
otherwise vreader_xfr_bytes executes it (with a 270-byte receive buffer)
and exactly one EMUL_RESPONSE_APDU (on VREADER_OK) or EMUL_ERROR record is
pushed.  xfr is the external execute oracle: status and response bytes for
a given reader and request.  The second component lists the executed
request buffers in execution order. -/
def handle_apdu_loop (xfr : Nat → List Nat → Nat × List Nat) :
    EmulatedState → List EmulEvent → EmulatedState × List (List Nat)
  | s, [] => (s, [])
  | s, e :: rest =>
    if e.type = EMUL_GUEST_APDU then
      match s.reader with
      | none => handle_apdu_loop xfr s rest
      | some r =>
        let res := xfr r e.data
        let s2 := if res.1 = VREADER_OK
                  then emulated_push_response_apdu s res.2
                  else emulated_push_error s res.1
        let k := handle_apdu_loop xfr s2 rest
        (k.1, e.data :: k.2)
    else
      handle_apdu_loop xfr s rest

/-- One wakeup of handle_apdu_thread in the non-quit case: drain the whole
guest_apdu_list (the loop runs until QSIMPLEQ_EMPTY, leaving it empty). -/
def handle_apdu_drain (xfr : Nat → List Nat → Nat × List Nat) (s : EmulatedState) :
    EmulatedState × List (List Nat) :=
  let k := handle_apdu_loop xfr s s.guest_apdu_list
  ({ k.1 with guest_apdu_list := [] }, k.2)

/-- emulated_apdu_from_guest (lines 111-124): build an EMUL_GUEST_APDU
record holding the guest bytes and append it to guest_apdu_list under
vreader_mutex, then signal the worker condition variable. -/
def emulated_apdu_from_guest (s : EmulatedState) (apdu : List Nat) : EmulatedState :=
  { s with
      guest_apdu_list :=
        s.guest_apdu_list ++ [{ type := EMUL_GUEST_APDU, data := apdu }] }

/-- The single event record the APDU worker pushes for one executed
request (lines 238-242): a response record on VREADER_OK, else an error
record carrying the status. -/
def apduOutcome (xfr : Nat → List Nat → Nat × List Nat) (r : Nat) (e : EmulEvent) :
    EmulEvent :=
  if (xfr r e.data).1 = VREADER_OK then
    { type := EMUL_RESPONSE_APDU, data := (xfr r e.data).2 }
  else
    { type := EMUL_ERROR, code := (xfr r e.data).1 }

/-- The records a full drain pushes, in order: one outcome per pending
EMUL_GUEST_APDU record. -/
def apduOutcomes (xfr : Nat → List Nat → Nat × List Nat) (r : Nat)
    (es : List EmulEvent) : List EmulEvent :=
  (es.filter fun e => e.type == EMUL_GUEST_APDU).map (apduOutcome xfr r)

/-- The VEvent notification kinds of the external vevent collaborator. -/
inductive VEventType where
  | readerInsert
  | readerRemove
  | cardInsert
  | cardRemove
  | last
  deriving DecidableEq

/-- A notification from vevent_wait_next_vevent: a kind and the reader
reference it concerns (NULL for the terminal notification). -/
structure VEvent where
  type : VEventType
  reader : Option Nat := none
  deriving DecidableEq

/-- What one iteration of the event_thread loop does: either the loop
continues with an updated state, or the loop is left and the thread
returns (both the break paths and the VEVENT_LAST return reach
"return NULL"). -/
inductive EventThreadOutcome where
  | continueLoop (s : EmulatedState)
  | threadExit (s : EmulatedState)
  deriving DecidableEq

/-- The state carried by an outcome. -/
def outcomeState : EventThreadOutcome → EmulatedState
  | EventThreadOutcome.continueLoop s => s
  | EventThreadOutcome.threadExit s => s

/-- One iteration of event_thread (lines 258-315), given the notification
returned by vevent_wait_next_vevent (none models a NULL return).  powerOn
is the external vreader_power_on oracle: the ATR bytes it stores for a
reader (the card passes a MAX_ATR_SIZE buffer and capacity).  Faithful
points: a NULL event breaks out of the loop (line 263); an event whose
type is not VEVENT_READER_INSERT and whose reader differs from
card->reader hits the "EVENT ignored" branch which executes break,
leaving the loop and ending the thread (lines 265-269); VEVENT_CARD_INSERT
stores (uint8_t)atr_len into card->atr_length at line 299 before pushing
the record; VEVENT_LAST returns, ending the thread. -/
def event_thread_step (powerOn : Option Nat → List Nat) (s : EmulatedState)
    (oe : Option VEvent) : EventThreadOutcome :=
  match oe with
  | none => EventThreadOutcome.threadExit s
  | some event =>
    if event.type ≠ VEventType.readerInsert ∧ event.reader ≠ s.reader then
      EventThreadOutcome.threadExit s
    else
      match event.type with
      | VEventType.readerInsert =>
        if s.reader = none then
          EventThreadOutcome.continueLoop
            (emulated_push_reader_insert { s with reader := event.reader })
        else
          EventThreadOutcome.continueLoop s
      | VEventType.readerRemove =>
        EventThreadOutcome.continueLoop
          (emulated_push_reader_remove { s with reader := none })
      | VEventType.cardInsert =>
        EventThreadOutcome.continueLoop
          (emulated_push_card_insert
            { s with atr_length := (powerOn event.reader).length % 256 }
            (powerOn event.reader))
      | VEventType.cardRemove =>
        EventThreadOutcome.continueLoop (emulated_push_card_remove s)
      | VEventType.last =>
        EventThreadOutcome.threadExit s

/-- Result of emulated_initfn: the returned int and whether each worker
thread was created (pthread_create succeeded, i.e. returned 0). -/
structure InitOutcome where
  result : Int
  eventThreadStarted : Bool
  apduThreadStarted : Bool
  deriving DecidableEq

/-- Lines 432-446 of emulated_initfn: check the vcard_emul_init result,
then create the two worker threads, failing on a negative pthread_create
return.  rv1 and rv2 are the pthread_create results for event_thread and
handle_apdu_thread. -/
def initfn_tail (ret : Nat) (rv1 rv2 : Int) : InitOutcome :=
  if ret ≠ VCARD_EMUL_OK then InitOutcome.mk (-1) false false
  else if rv1 < 0 then InitOutcome.mk (-1) (decide (rv1 = 0)) false
  else if rv2 < 0 then InitOutcome.mk (-1) (decide (rv1 = 0)) (decide (rv2 = 0))
  else InitOutcome.mk 0 (decide (rv1 = 0)) (decide (rv2 = 0))

/-- emulated_initfn (lines 396-447) on the configuration surface.  The
queue/mutex initialisations have no observable effect here; pipeOk is the
init_pipe_signaling result; vcardCertRet and vcardDefaultRet are the
vcard_emul_init results for the certificate and default paths.  backend
is the configured backend string, with "" standing for an unset backend
(the else path at line 424 tests card->backend before comparing it, so an
unset backend falls through to the default vcard_emul_init(NULL)). -/
def emulated_initfn (backend : String) (cert1 cert2 cert3 : Option String)
    (pipeOk : Bool) (vcardCertRet vcardDefaultRet : Nat) (rv1 rv2 : Int) :
    InitOutcome :=
  if pipeOk = false then InitOutcome.mk (-1) false false
  else if backend = BACKEND_CERTIFICATES ∧ cert1 ≠ none ∧ cert2 ≠ none ∧ cert3 ≠ none then
    initfn_tail vcardCertRet rv1 rv2
  else if backend = BACKEND_CERTIFICATES then
    InitOutcome.mk (-1) false false
  else if backend ≠ "" ∧ backend ≠ BACKEND_NSS_EMULATED then
    InitOutcome.mk (-1) false false
  else
    initfn_tail vcardDefaultRet rv1 rv2

/-- Every EMUL_CARD_INSERT record pending in the event queue satisfies the
line-344 assertion bound: its payload does not exceed MAX_ATR_SIZE. -/
def cardInsertBounded (s : EmulatedState) : Prop :=
  ∀ e ∈ s.event_list, e.type = EMUL_CARD_INSERT → e.data.length ≤ MAX_ATR_SIZE

/-- Stub execute oracle for witnesses: success with a fixed 2-byte reply. -/
def xfrOk : Nat → List Nat → Nat × List Nat := fun _ _ => (VREADER_OK, [144, 0])

/-- Stub power-on oracle for witnesses: the 2-byte ATR 3B 00. -/
def powerOnStub : Option Nat → List Nat := fun _ => [59, 0]

/-- Witness state: no reader held, one pending guest APDU. -/
def stateNoReader : EmulatedState :=
  { initialState with guest_apdu_list := [EmulEvent.mk EMUL_GUEST_APDU 0 [1, 2]] }

/-- Witness state: reader 7 held, one pending guest APDU. -/
def stateWithReader : EmulatedState :=
  { initialState with
      reader := some 7,
      guest_apdu_list := [EmulEvent.mk EMUL_GUEST_APDU 0 [0, 164]] }

/-- Witness state: reader 7 held, empty request queue. -/
def stateReaderOnly : EmulatedState := { initialState with reader := some 7 }

/-- The callbacks the dispatch switch emits do not depend on the device state. -/
lemma dispatchEvent_snd (s : EmulatedState) (e : EmulEvent) :
    (dispatchEvent s e).2 = eventCallbacks e := by
  unfold eventCallbacks dispatchEvent
  split_ifs <;> rfl

/-- traceCallbacks distributes over append. -/
lemma traceCallbacks_append (xs ys : List TraceAction) :
    traceCallbacks (xs ++ ys) = traceCallbacks xs ++ traceCallbacks ys := by
  induction xs with
  | nil => rfl
  | cons a tl ih => cases a <;> simp [traceCallbacks, ih]

/-- traceCallbacks recovers a leading block of callback actions. -/
lemma traceCallbacks_map_callback (cbs : List Callback) (tr : List TraceAction) :
    traceCallbacks (cbs.map TraceAction.callback ++ tr) = cbs ++ traceCallbacks tr := by
  induction cbs with
  | nil => rfl
  | cons c tl ih => simp [traceCallbacks, ih]

/-- The callbacks produced by the pipe_read loop agree with its trace. -/
lemma pipeReadLoop_snd (es : List EmulEvent) : ∀ s : EmulatedState,
    (pipeReadLoop s es).2 = traceCallbacks (pipeReadTraceLoop es) := by
  induction es with
  | nil => intro s; rfl
  | cons e rest ih =>
    intro s
    simp [pipeReadLoop, pipeReadTraceLoop, dispatchEvent_snd, ih,
      traceCallbacks_map_callback, traceCallbacks]

/-- A block of callback actions leaves the depth-scan unchanged when the
lock is held. -/
lemma scanAllUnderLock_map_callback (d : Nat) (hd : 0 < d) (cbs : List Callback)
    (tr : List TraceAction) :
    scanAllUnderLock d (cbs.map TraceAction.callback ++ tr) = scanAllUnderLock d tr := by
  induction cbs with
  | nil => rfl
  | cons c tl ih => simp [scanAllUnderLock, hd, ih]

/-- The pipe_read loop trace passes the all-under-lock scan at any
positive depth. -/
lemma scanAllUnderLock_traceLoop (es : List EmulEvent) (d : Nat) (hd : 0 < d)
    (tr : List TraceAction) :
    scanAllUnderLock d (pipeReadTraceLoop es ++ tr) = scanAllUnderLock d tr := by
  induction es with
  | nil => rfl
  | cons e rest ih =>
    simp [pipeReadTraceLoop, List.append_assoc, scanAllUnderLock_map_callback d hd,
      scanAllUnderLock, ih]

/-- Claim C1 (amended, proved): pipe_read acquires the event-list lock,
dispatches the pending records in FIFO order while still holding the lock
(every callback action of its trace occurs at positive lock depth),
freeing each record after its callbacks, then resets the queue to empty
and only then releases the lock; the callbacks it invokes are exactly the
trace's callbacks, i.e. those of the queued records in queue order, and
the queue is left empty. -/
theorem C1_pipe_read_dispatches_under_lock (es : List EmulEvent) (s : EmulatedState) :
    allCallbacksUnderLock (pipeReadTrace es) = true
    ∧ (pipe_read s).1.event_list = []
    ∧ (pipe_read s).2 = traceCallbacks (pipeReadTrace s.event_list) := by
  refine ⟨?_, rfl, ?_⟩
  · unfold allCallbacksUnderLock pipeReadTrace
    simp [scanAllUnderLock, scanAllUnderLock_traceLoop es 1 (by decide)]
  · unfold pipe_read pipeReadTrace
    simp [pipeReadLoop_snd, traceCallbacks, traceCallbacks_append]

/-- Claim C1 counterexample: with a single response record queued, the
pipe_read trace invokes an external callback while the event-list lock is
held, refuting the claim that no external callback runs under the lock
(the code only empties the queue and unlocks after the dispatch loop). -/
theorem C1_callback_under_lock_cex :
    someCallbackUnderLock
      (pipeReadTrace [EmulEvent.mk EMUL_RESPONSE_APDU 0 [144, 0]]) = true := by
  decide

/-- Claim C2 (code bug, evaluated): a card-remove notification for reader
2 while reader 1 is held reaches the "EVENT ignored" branch (lines
265-269), whose break leaves the while loop and ends the thread, although
the notification is not the terminal VEVENT_LAST; the claimed behaviour
is to skip it and keep waiting. -/
theorem C2_mismatched_reader_terminates_thread :
    event_thread_step (fun _ => []) { initialState with reader := some 1 }
        (some (VEvent.mk VEventType.cardRemove (some 2)))
      = EventThreadOutcome.threadExit { initialState with reader := some 1 }
    ∧ VEventType.cardRemove ≠ VEventType.last :=
  ⟨rfl, by decide⟩

/-- Claim C3 (code bug, evaluated): after the event thread handles a
card-insert notification with the 2-byte ATR 3B 00 (line 299 already
stores atr_length = 2) and before any dispatch has run, get_atr reports
length 2 while the atr buffer still holds only zeroes: the length does
not correspond to bytes stored by any dispatched CardInsert (none was
dispatched - the record is still pending), and the reported bytes differ
from the pending ATR. -/
theorem C3_atr_length_written_before_dispatch :
    (emulated_get_atr (outcomeState (event_thread_step powerOnStub initialState
        (some (VEvent.mk VEventType.cardInsert none))))).1 = 2
    ∧ (emulated_get_atr (outcomeState (event_thread_step powerOnStub initialState
        (some (VEvent.mk VEventType.cardInsert none))))).2.take 2 = [0, 0]
    ∧ (outcomeState (event_thread_step powerOnStub initialState
        (some (VEvent.mk VEventType.cardInsert none)))).event_list
        = [EmulEvent.mk EMUL_CARD_INSERT 0 [59, 0]]
    ∧ ([0, 0] : List Nat) ≠ [59, 0] := by
  decide

/-- Pushing a record whose kind meets the CardInsert bound preserves the
line-344 assertion invariant. -/
lemma cardInsertBounded_push (s : EmulatedState) (ev : EmulEvent)
    (hs : cardInsertBounded s)
    (hev : ev.type = EMUL_CARD_INSERT → ev.data.length ≤ MAX_ATR_SIZE) :
    cardInsertBounded (emulated_push_event s ev) := by
  intro e he ht
  simp [emulated_push_event] at he
  rcases he with h1 | h1
  · exact hs e h1 ht
  · subst h1; exact hev ht

/-- The record the APDU worker pushes for an executed request is never a
CardInsert record. -/
lemma apduOutcome_type_ne_card_insert (xfr : Nat → List Nat → Nat × List Nat)
    (r : Nat) (e0 : EmulEvent) :
    (apduOutcome xfr r e0).type ≠ EMUL_CARD_INSERT := by
  unfold apduOutcome
  split_ifs <;> simp [EMUL_RESPONSE_APDU, EMUL_ERROR, EMUL_CARD_INSERT]

/-- The APDU drain loop with no reader held drops every pending request:
no record is pushed and nothing is executed. -/
lemma handle_apdu_loop_none (xfr : Nat → List Nat → Nat × List Nat) :
    ∀ (es : List EmulEvent) (s : EmulatedState), s.reader = none →
      handle_apdu_loop xfr s es = (s, []) := by
  intro es
  induction es with
  | nil => intro s h; rfl
  | cons e rest ih =>
    intro s h
    by_cases he : e.type = EMUL_GUEST_APDU <;>
      simp [handle_apdu_loop, he, h, ih s h]

/-- The pushed record of one executed request equals apduOutcome. -/
lemma push_apduOutcome (xfr : Nat → List Nat → Nat × List Nat) (r : Nat)
    (s : EmulatedState) (e : EmulEvent) :
    (if (xfr r e.data).1 = VREADER_OK
     then emulated_push_response_apdu s (xfr r e.data).2
     else emulated_push_error s (xfr r e.data).1)
      = emulated_push_event s (apduOutcome xfr r e) := by
  unfold apduOutcome emulated_push_response_apdu emulated_push_error emulated_push_data_type
  split_ifs <;> rfl

/-- Characterisation of the APDU drain loop with a reader held: it
appends exactly one outcome record per guest-APDU request to the event
queue, leaves the reader and guest queue fields alone, and executes
exactly the guest-APDU requests in order. -/
lemma handle_apdu_loop_some (xfr : Nat → List Nat → Nat × List Nat) (r : Nat) :
    ∀ (es : List EmulEvent) (s : EmulatedState), s.reader = some r →
      (handle_apdu_loop xfr s es).1.event_list = s.event_list ++ apduOutcomes xfr r es
      ∧ (handle_apdu_loop xfr s es).1.reader = some r
      ∧ (handle_apdu_loop xfr s es).1.guest_apdu_list = s.guest_apdu_list
      ∧ (handle_apdu_loop xfr s es).2
          = ((es.filter fun e => e.type == EMUL_GUEST_APDU).map fun e => e.data) := by
  intro es
  induction es with
  | nil => intro s h; simp [handle_apdu_loop, apduOutcomes, h]
  | cons e rest ih =>
    intro s h
    by_cases he : e.type = EMUL_GUEST_APDU
    · have hstep : handle_apdu_loop xfr s (e :: rest)
          = ((handle_apdu_loop xfr (emulated_push_event s (apduOutcome xfr r e)) rest).1,
             e.data :: (handle_apdu_loop xfr (emulated_push_event s (apduOutcome xfr r e)) rest).2) := by
        simp [handle_apdu_loop, he, h, push_apduOutcome]
      obtain ⟨ih1, ih2, ih3, ih4⟩ :=
        ih (emulated_push_event s (apduOutcome xfr r e)) h
      rw [hstep]
      refine ⟨?_, ih2, ih3, ?_⟩
      · rw [ih1]
        simp [emulated_push_event, apduOutcomes, he]
      · rw [ih4]
        simp [he]
    · obtain ⟨ih1, ih2, ih3, ih4⟩ := ih s h
      have hstep : handle_apdu_loop xfr s (e :: rest) = handle_apdu_loop xfr s rest := by
        simp [handle_apdu_loop, he]
      rw [hstep]
      refine ⟨?_, ih2, ih3, ?_⟩
      · rw [ih1]; simp [apduOutcomes, he]
      · rw [ih4]; simp [he]

/-- Claim C5 (confirmed): with the session handle absent, a full drain of
the APDU request queue pushes no event record at all, executes nothing,
and consumes (frees) every pending request. -/
theorem C5_absent_reader_drops_requests (xfr : Nat → List Nat → Nat × List Nat)
    (s : EmulatedState) (h : s.reader = none) :
    (handle_apdu_drain xfr s).1.event_list = s.event_list
    ∧ (handle_apdu_drain xfr s).2 = []
    ∧ (handle_apdu_drain xfr s).1.guest_apdu_list = [] := by
  unfold handle_apdu_drain
  simp [handle_apdu_loop_none xfr s.guest_apdu_list s h]

/-- Witness for C5: a concrete state with one pending request and no
reader. -/
theorem C5_absent_reader_drops_requests_wit :
    (handle_apdu_drain xfrOk stateNoReader).1.event_list = stateNoReader.event_list
    ∧ (handle_apdu_drain xfrOk stateNoReader).2 = []
    ∧ (handle_apdu_drain xfrOk stateNoReader).1.guest_apdu_list = [] :=
  C5_absent_reader_drops_requests xfrOk stateNoReader rfl

/-- Claim C6 (confirmed): with reader r held, a drain appends exactly one
record per guest-APDU request: an EMUL_RESPONSE_APDU record carrying
exactly the returned response bytes when the execute status is
VREADER_OK, else an EMUL_ERROR record carrying the status; and assuming
the execute oracle respects the 270-byte receive buffer, every response
record so pushed is within APDU_BUF_SIZE. -/
theorem C6_response_or_error_pushed (xfr : Nat → List Nat → Nat × List Nat) (r : Nat)
    (s : EmulatedState) (h : s.reader = some r)
    (hx : ∀ d, ((xfr r d).2).length ≤ APDU_BUF_SIZE) :
    (handle_apdu_drain xfr s).1.event_list
      = s.event_list ++ apduOutcomes xfr r s.guest_apdu_list
    ∧ ∀ e ∈ apduOutcomes xfr r s.guest_apdu_list,
        (e.type = EMUL_RESPONSE_APDU ∨ e.type = EMUL_ERROR)
        ∧ (e.type = EMUL_RESPONSE_APDU → e.data.length ≤ APDU_BUF_SIZE) := by
  obtain ⟨h1, h2, h3, h4⟩ :=
    handle_apdu_loop_some xfr r s.guest_apdu_list s h
  constructor
  · unfold handle_apdu_drain
    simpa using h1
  · intro e he
    unfold apduOutcomes at he
    rcases List.mem_map.mp he with ⟨e0, _, rfl⟩
    unfold apduOutcome
    split_ifs with hst
    · exact ⟨Or.inl rfl, fun _ => hx e0.data⟩
    · refine ⟨Or.inr rfl, fun habs => ?_⟩
      simp [EMUL_ERROR, EMUL_RESPONSE_APDU] at habs

/-- Witness for C6: reader 7 held, one pending request, constant success
oracle. -/
theorem C6_response_or_error_pushed_wit :
    (handle_apdu_drain xfrOk stateWithReader).1.event_list
      = stateWithReader.event_list ++ apduOutcomes xfrOk 7 stateWithReader.guest_apdu_list
    ∧ ∀ e ∈ apduOutcomes xfrOk 7 stateWithReader.guest_apdu_list,
        (e.type = EMUL_RESPONSE_APDU ∨ e.type = EMUL_ERROR)
        ∧ (e.type = EMUL_RESPONSE_APDU → e.data.length ≤ APDU_BUF_SIZE) :=
  C6_response_or_error_pushed xfrOk 7 stateWithReader rfl
    (fun d => by norm_num [xfrOk, APDU_BUF_SIZE])

/-- The guest records built by apdu_from_guest all pass the worker's type
check and carry exactly the submitted bytes. -/
lemma guestRecords_filter_map (reqs : List (List Nat)) :
    ((reqs.map fun d => ({ type := EMUL_GUEST_APDU, data := d } : EmulEvent)).filter
        fun e => e.type == EMUL_GUEST_APDU).map (fun e => e.data) = reqs := by
  induction reqs with
  | nil => rfl
  | cons d tl ih => simp [ih]

/-- Submitting requests in order builds the guest APDU queue in order and
touches nothing else. -/
lemma foldl_apdu_from_guest (reqs : List (List Nat)) : ∀ s : EmulatedState,
    reqs.foldl emulated_apdu_from_guest s
      = { s with
            guest_apdu_list :=
              s.guest_apdu_list
                ++ reqs.map fun d => { type := EMUL_GUEST_APDU, data := d } } := by
  induction reqs with
  | nil => intro s; simp
  | cons d tl ih => intro s; simp [List.foldl, emulated_apdu_from_guest, ih]

/-- Claim C9 (confirmed): submitting N requests through apdu_from_guest
before the worker wakes makes the drain execute exactly those N request
buffers, one call per request, in submission order (the drain runs them
one at a time under vreader_mutex). -/
theorem C9_drain_executes_fifo (xfr : Nat → List Nat → Nat × List Nat) (r : Nat)
    (s : EmulatedState) (reqs : List (List Nat)) (h : s.reader = some r)
    (h0 : s.guest_apdu_list = []) :
    (handle_apdu_drain xfr (reqs.foldl emulated_apdu_from_guest s)).2 = reqs := by
  rw [foldl_apdu_from_guest reqs s, h0]
  obtain ⟨-, -, -, h4⟩ :=
    handle_apdu_loop_some xfr r
      (([] : List EmulEvent)
        ++ reqs.map fun d => { type := EMUL_GUEST_APDU, data := d })
      { s with
          guest_apdu_list :=
            ([] : List EmulEvent)
              ++ reqs.map fun d => { type := EMUL_GUEST_APDU, data := d } } h
  unfold handle_apdu_drain
  simp only [List.nil_append] at h4
  simp only [List.nil_append]
  rw [h4]
  exact guestRecords_filter_map reqs

/-- Witness for C9: two requests submitted with reader 7 held. -/
theorem C9_drain_executes_fifo_wit :
    (handle_apdu_drain xfrOk
        ([[1], [2, 3]].foldl emulated_apdu_from_guest stateReaderOnly)).2
      = [[1], [2, 3]] :=
  C9_drain_executes_fifo xfrOk 7 stateReaderOnly [[1], [2, 3]] rfl rfl

/-- Claim C4 (confirmed): given the vreader_power_on contract (its ATR
result fits the 40-byte buffer it is handed), both record producers
preserve the invariant that every pending EMUL_CARD_INSERT record has a
payload within MAX_ATR_SIZE - so the line-344 assertion holds for every
CardInsert record that reaches the dispatcher, and get_atr never receives
more than MAX_ATR_SIZE stored bytes from a dispatch. -/
theorem C4_card_insert_len_bounded (powerOn : Option Nat → List Nat)
    (xfr : Nat → List Nat → Nat × List Nat) (s : EmulatedState) (oe : Option VEvent)
    (hpow : ∀ rd, (powerOn rd).length ≤ MAX_ATR_SIZE)
    (hs : cardInsertBounded s) :
    cardInsertBounded (outcomeState (event_thread_step powerOn s oe))
    ∧ cardInsertBounded (handle_apdu_drain xfr s).1 := by
  constructor
  · cases oe with
    | none => exact hs
    | some event =>
      unfold event_thread_step
      by_cases hig : event.type ≠ VEventType.readerInsert ∧ event.reader ≠ s.reader
      · simp only [if_pos hig]; exact hs
      · simp only [if_neg hig]
        cases event.type with
        | readerInsert =>
          by_cases hr : s.reader = none
          · simp only [if_pos hr]
            exact cardInsertBounded_push _ _ hs (by intro habs; simp [EMUL_READER_INSERT, EMUL_CARD_INSERT] at habs)
          · simp only [if_neg hr]; exact hs
        | readerRemove =>
          exact cardInsertBounded_push _ _ hs (by intro habs; simp [EMUL_READER_REMOVE, EMUL_CARD_INSERT] at habs)
        | cardInsert =>
          exact cardInsertBounded_push _ _ hs (fun _ => hpow event.reader)
        | cardRemove =>
          exact cardInsertBounded_push _ _ hs (by intro habs; simp [EMUL_CARD_REMOVE, EMUL_CARD_INSERT] at habs)
        | last => exact hs
  · cases hr : s.reader with
    | none =>
      unfold handle_apdu_drain
      simp only [handle_apdu_loop_none xfr s.guest_apdu_list s hr]
      intro e he ht
      exact hs e he ht
    | some r =>
      obtain ⟨h1, -, -, -⟩ := handle_apdu_loop_some xfr r s.guest_apdu_list s hr
      unfold handle_apdu_drain
      intro e he ht
      simp only [h1] at he
      rcases List.mem_append.mp he with hmem | hmem
      · exact hs e hmem ht
      · unfold apduOutcomes at hmem
        rcases List.mem_map.mp hmem with ⟨e0, -, rfl⟩
        exact absurd ht (apduOutcome_type_ne_card_insert xfr r e0)

/-- Witness for C4: concrete bounded power-on oracle and state. -/
theorem C4_card_insert_len_bounded_wit :
    cardInsertBounded (outcomeState (event_thread_step powerOnStub stateWithReader
        (some (VEvent.mk VEventType.cardInsert (some 7)))))
    ∧ cardInsertBounded (handle_apdu_drain xfrOk stateWithReader).1 :=
  C4_card_insert_len_bounded powerOnStub xfrOk stateWithReader
    (some (VEvent.mk VEventType.cardInsert (some 7)))
    (fun rd => by norm_num [powerOnStub, MAX_ATR_SIZE])
    (by intro e he; simp [stateWithReader, initialState] at he)

/-- Claim C7 (confirmed): emulated_push_event appends the record to the
event queue under the lock before the pipe wakeup write is attempted; the
wakeup result does not affect the resulting state (the record stays
queued), the failure path only logs, and no action in the trace aborts. -/
theorem C7_push_event_queued_before_wakeup (s : EmulatedState) (e : EmulEvent)
    (wr : Int) :
    (emulated_push_event_traced s e wr).1.event_list = s.event_list ++ [e]
    ∧ (emulated_push_event_traced s e wr).1 = emulated_push_event s e
    ∧ (emulated_push_event_traced s e wr).2
        = [PushAction.lockAcquire, PushAction.appendRecord e, PushAction.lockRelease,
           PushAction.wakeupWrite wr]
          ++ (if wr = 1 then [] else [PushAction.logWakeupFailure])
    ∧ ((emulated_push_event_traced s e wr).2.all
        fun a => !(a == PushAction.abortProcess)) = true := by
  refine ⟨rfl, rfl, rfl, ?_⟩
  by_cases hwr : wr = 1 <;> simp [emulated_push_event_traced, hwr]

/-- Claim C8 (confirmed): the certificates backend with any missing
credential, and any given unrecognized backend name, make emulated_initfn
return -1 with neither worker thread created; and a successful (0) return
only happens for a valid configuration (certificates with all three
credentials, or the default/nss-emulated backend). -/
theorem C8_initfn_validates_config (backend : String) (cert1 cert2 cert3 : Option String)
    (pipeOk : Bool) (vcr vdr : Nat) (rv1 rv2 : Int) :
    (backend = BACKEND_CERTIFICATES ∧ (cert1 = none ∨ cert2 = none ∨ cert3 = none) →
      emulated_initfn backend cert1 cert2 cert3 pipeOk vcr vdr rv1 rv2
        = InitOutcome.mk (-1) false false)
    ∧ (backend ≠ "" ∧ backend ≠ BACKEND_NSS_EMULATED ∧ backend ≠ BACKEND_CERTIFICATES →
      emulated_initfn backend cert1 cert2 cert3 pipeOk vcr vdr rv1 rv2
        = InitOutcome.mk (-1) false false)
    ∧ ((emulated_initfn backend cert1 cert2 cert3 pipeOk vcr vdr rv1 rv2).result = 0 →
      (backend = BACKEND_CERTIFICATES ∧ cert1 ≠ none ∧ cert2 ≠ none ∧ cert3 ≠ none)
      ∨ backend = "" ∨ backend = BACKEND_NSS_EMULATED) := by
  unfold emulated_initfn
  split_ifs with h1 h2 h3 h4
  · exact ⟨fun _ => rfl, fun _ => rfl, fun habs => by simp at habs⟩
  · refine ⟨fun hc => ?_, fun hb => absurd h2.1 hb.2.2, fun _ => Or.inl h2⟩
    rcases hc.2 with hn | hn | hn <;> simp [hn] at h2
  · refine ⟨fun _ => rfl, fun hb => absurd h3 hb.2.2, fun habs => by simp at habs⟩
  · exact ⟨fun hc => absurd hc.1 h3, fun _ => rfl, fun habs => by simp at habs⟩
  · have hd : backend = "" ∨ backend = BACKEND_NSS_EMULATED := by
      by_cases hb1 : backend = ""
      · exact Or.inl hb1
      · by_cases hb2 : backend = BACKEND_NSS_EMULATED
        · exact Or.inr hb2
        · exact absurd ⟨hb1, hb2⟩ h4
    exact ⟨fun hc => absurd hc.1 h3, fun hb => by
        rcases hd with hn | hn
        · exact absurd hn hb.1
        · exact absurd hn hb.2.1,
      fun _ => Or.inr hd⟩

/-- Witness for C8: certificates backend with all credentials missing is
rejected with no thread created. -/
theorem C8_initfn_validates_config_wit :
    emulated_initfn BACKEND_CERTIFICATES none none none true 0 0 0 0
      = InitOutcome.mk (-1) false false :=
  (C8_initfn_validates_config BACKEND_CERTIFICATES none none none true 0 0 0 0).1
    ⟨rfl, Or.inl rfl⟩

/-- Claim C10 (confirmed): dispatching a record whose kind is not
EMUL_CARD_INSERT (reader insert/remove, card remove, response, error, or
an unrecognized kind) leaves the device's atr buffer and atr_length field
unchanged - only the CardInsert arm of the dispatch switch writes them. -/
theorem C10_non_card_insert_preserves_atr (s : EmulatedState) (e : EmulEvent)
    (h : e.type ≠ EMUL_CARD_INSERT) :
    (dispatchEvent s e).1.atr = s.atr
    ∧ (dispatchEvent s e).1.atr_length = s.atr_length := by
  unfold dispatchEvent
  split_ifs <;> simp_all

/-- Witness for C10: a concrete error record leaves the ATR state alone. -/
theorem C10_non_card_insert_preserves_atr_wit :
    (dispatchEvent initialState (EmulEvent.mk EMUL_ERROR 7 [])).1.atr = initialState.atr
    ∧ (dispatchEvent initialState (EmulEvent.mk EMUL_ERROR 7 [])).1.atr_length
        = initialState.atr_length :=
  C10_non_card_insert_preserves_atr initialState (EmulEvent.mk EMUL_ERROR 7 [])
    (by decide)

end CcidCardEmulated
